import Mathlib

/-!
Verification of the hourfix booking backend (`src/server.js`).

The mutable SQLite store is embedded as an explicit state record `St`
holding the five tables; each Express handler's core becomes a pure
state-transition function returning `Except Err _`.  Money values are
rationals; JavaScript's `toFixed(2)` / `toFixed(1)` rounding is
`round2` / `round1` (round half up at the given decimal place).
-/

namespace Hourfix

/-- JavaScript `parseFloat((q).toFixed(2))`: round half up to 2 decimal places. -/
def round2 (q : Rat) : Rat := (((q * 100 + 1/2).floor : Int) : Rat) / 100

/-- JavaScript `parseFloat((q).toFixed(1))`: round half up to 1 decimal place. -/
def round1 (q : Rat) : Rat := (((q * 10 + 1/2).floor : Int) : Rat) / 10

/-- Row of the `businesses` table (fields the core logic reads). -/
structure Business where
  id : Nat
  name : String
  commission_rate : Rat
  rating : Rat
  total_reviews : Nat
  deriving DecidableEq

/-- Row of the `services` table. -/
structure Service where
  id : Nat
  business_id : Nat
  name : String
  duration_minutes : Nat
  price : Rat
  active : Bool
  deriving DecidableEq

/-- Row of the `availability` table (a time slot). -/
structure Slot where
  id : Nat
  business_id : Nat
  date : String
  time : String
  status : String
  deriving DecidableEq

/-- Row of the `bookings` table. -/
structure Booking where
  id : Nat
  client_id : Nat
  business_id : Nat
  service_id : Nat
  availability_id : Nat
  date : String
  time : String
  price : Rat
  commission_amount : Rat
  status : String
  cancellation_charge : Rat
  confirmation_code : String
  deriving DecidableEq

/-- Row of the `reviews` table.  The `rating INTEGER` column has SQLite
affinity only, so the stored rating is modelled as a rational: the
handler's guard does not force integrality. -/
structure Review where
  id : Nat
  booking_id : Nat
  client_id : Nat
  business_id : Nat
  rating : Rat
  comment : String
  deriving DecidableEq

/-- The whole store, with the autoincrement counters of the tables the
core inserts into. -/
structure St where
  businesses : List Business
  services : List Service
  availability : List Slot
  bookings : List Booking
  reviews : List Review
  nextSlotId : Nat
  nextBookingId : Nat
  nextReviewId : Nat
  deriving DecidableEq

/-- The user-facing error taxonomy of the handlers. -/
inductive Err where
  | SlotUnavailable
  | ServiceNotFound
  | NotFound
  | AlreadyCancelled
  | InvalidRating
  | InvalidState
  | DuplicateReview
  deriving DecidableEq

/-- Query `SELECT * FROM availability WHERE business_id=? AND date=? AND time=?
AND status='available'`. -/
def findAvailable (st : St) (bid : Nat) (d t : String) : Option Slot :=
  st.availability.find? fun a =>
    a.business_id == bid && a.date == d && a.time == t && a.status == "available"

/-- Query `SELECT * FROM services WHERE id=? AND business_id=? AND active=1`. -/
def findService (st : St) (sid bid : Nat) : Option Service :=
  st.services.find? fun s => s.id == sid && s.business_id == bid && s.active

/-- Query `SELECT * FROM businesses WHERE id=?`. -/
def findBusiness (st : St) (bid : Nat) : Option Business :=
  st.businesses.find? fun b => b.id == bid

/-- Query `SELECT * FROM bookings WHERE id=? AND business_id=?`. -/
def findBookingForBusiness (st : St) (bkid bid : Nat) : Option Booking :=
  st.bookings.find? fun b => b.id == bkid && b.business_id == bid

/-- Query `SELECT * FROM bookings WHERE id=? AND client_id=?`. -/
def findBookingForClient (st : St) (bkid cid : Nat) : Option Booking :=
  st.bookings.find? fun b => b.id == bkid && b.client_id == cid

/-- Query `SELECT id FROM reviews WHERE booking_id=?`. -/
def findReview (st : St) (bkid : Nat) : Option Review :=
  st.reviews.find? fun r => r.booking_id == bkid

/-- Handler `POST /api/bookings` (the authenticated-client core).  The
confirmation code produced by the `genCode` retry loop is passed in as
`code`; the handler then, in one `db.transaction`, inserts the booking
and flips the slot to `booked`. -/
def createBooking (st : St) (cid bid sid : Nat) (d t code : String) :
    Except Err (St × Booking) :=
  match findAvailable st bid d t with
  | none => .error .SlotUnavailable
  | some slot =>
    match findService st sid bid with
    | none => .error .ServiceNotFound
    | some sv =>
      match findBusiness st bid with
      | none => .error .NotFound
      | some bz =>
        let bk : Booking :=
          { id := st.nextBookingId, client_id := cid, business_id := bid
            service_id := sid, availability_id := slot.id, date := d, time := t
            price := sv.price
            commission_amount := round2 (sv.price * bz.commission_rate)
            status := "pending", cancellation_charge := 0
            confirmation_code := code }
        .ok ({ st with
                bookings := st.bookings ++ [bk]
                availability := st.availability.map fun a =>
                  if a.id == slot.id then { a with status := "booked" } else a
                nextBookingId := st.nextBookingId + 1 }, bk)

/-- Handler `PUT /api/bookings/:id/confirm`: no status guard, any found booking
is set to `confirmed`. -/
def confirmBooking (st : St) (bkid bid : Nat) : Except Err St :=
  match findBookingForBusiness st bkid bid with
  | none => .error .NotFound
  | some _ =>
    .ok { st with
          bookings := st.bookings.map fun b =>
            if b.id == bkid then { b with status := "confirmed" } else b }

/-- Handler `PUT /api/bookings/:id/reject`: releases the slot, then marks the
booking cancelled; no status guard and no write to
`cancellation_charge`. -/
def rejectBooking (st : St) (bkid bid : Nat) : Except Err St :=
  match findBookingForBusiness st bkid bid with
  | none => .error .NotFound
  | some bk =>
    .ok { st with
          availability := st.availability.map fun a =>
            if a.id == bk.availability_id then { a with status := "available" } else a
          bookings := st.bookings.map fun b =>
            if b.id == bkid then { b with status := "cancelled" } else b }

/-- Handler `PUT /api/bookings/:id/cancel`.  `parse d t` stands for
`new Date(`d`T`t`).getTime()` (epoch milliseconds) and `now` for
`new Date().getTime()`; `hoursLeft` is their difference over 3600000.
Returns the new state and the computed `cancellation_charge`. -/
def cancelBooking (st : St) (bkid cid : Nat)
    (parse : String → String → Int) (now : Int) : Except Err (St × Rat) :=
  match findBookingForClient st bkid cid with
  | none => .error .NotFound
  | some bk =>
    if bk.status == "cancelled" then .error .AlreadyCancelled
    else
      let hoursLeft : Rat := ((parse bk.date bk.time - now : Int) : Rat) / 3600000
      let charge : Rat := if hoursLeft < 24 then round2 (bk.price * (1/2)) else 0
      let st1 : St :=
        { st with
          bookings := st.bookings.map fun b =>
            if b.id == bkid then
              { b with status := "cancelled", cancellation_charge := charge }
            else b }
      let st2 : St :=
        if charge == 0 then
          { st1 with
            availability := st1.availability.map fun a =>
              if a.id == bk.availability_id then { a with status := "available" }
              else a }
        else st1
      .ok (st2, charge)

/-- Handler `POST /api/bookings/:id/review` (the authenticated-client core).
The rating guard is `!rating || rating < 1 || rating > 5`; a missing or
non-owned booking and a non-completed one share the same rejection.
On success the review is inserted and the owning business's
`rating`/`total_reviews` are recomputed from its full review set
(`AVG(rating)` with `toFixed(1)`, `COUNT(*)`). -/
def attachReview (st : St) (bkid cid : Nat) (rating : Rat) (comment : String) :
    Except Err St :=
  if rating == 0 || rating < 1 || 5 < rating then .error .InvalidRating
  else
    match findBookingForClient st bkid cid with
    | none => .error .InvalidState
    | some bk =>
      if bk.status != "completed" then .error .InvalidState
      else if (findReview st bkid).isSome then .error .DuplicateReview
      else
        let rv : Review :=
          { id := st.nextReviewId, booking_id := bkid, client_id := cid
            business_id := bk.business_id, rating := rating, comment := comment }
        let reviews1 := st.reviews ++ [rv]
        let bizRevs := reviews1.filter fun r => r.business_id == bk.business_id
        let total := bizRevs.length
        let avg : Rat := round1 ((bizRevs.map Review.rating).sum / (total : Rat))
        .ok { st with
              reviews := reviews1
              businesses := st.businesses.map fun bz =>
                if bz.id == bk.business_id then
                  { bz with rating := avg, total_reviews := total }
                else bz
              nextReviewId := st.nextReviewId + 1 }

/-- One entry of the `slots` array posted to
`POST /api/businesses/me/availability`; an absent `status` field maps to
`'available'` via `s.status || 'available'`. -/
structure SlotEntry where
  date : String
  time : String
  status : Option String
  deriving DecidableEq

/-- JavaScript `s.status || 'available'`. -/
def SlotEntry.effStatus (e : SlotEntry) : String := e.status.getD "available"

/-- The row an upsert entry conflicts with:
`ON CONFLICT(business_id,date,time)`. -/
def findSlotAtKey (st : St) (bid : Nat) (d t : String) : Option Slot :=
  st.availability.find? fun a =>
    a.business_id == bid && a.date == d && a.time == t

/-- One `INSERT INTO availability ... ON CONFLICT(business_id,date,time)
DO UPDATE SET status=excluded.status WHERE status!='booked'`. -/
def upsertOne (bid : Nat) (st : St) (e : SlotEntry) : St :=
  match findSlotAtKey st bid e.date e.time with
  | none =>
    { st with
      availability := st.availability ++
        [{ id := st.nextSlotId, business_id := bid, date := e.date
           time := e.time, status := e.effStatus }]
      nextSlotId := st.nextSlotId + 1 }
  | some a =>
    if a.status == "booked" then st
    else
      { st with
        availability := st.availability.map fun x =>
          if x.business_id == bid && x.date == e.date && x.time == e.time then
            { x with status := e.effStatus }
          else x }

/-- Handler `POST /api/businesses/me/availability`: the `db.transaction` running
the upsert over every posted entry in order. -/
def upsertMany (bid : Nat) (st : St) (es : List SlotEntry) : St :=
  es.foldl (upsertOne bid) st

/-- A character `Math.random().toString(36)` can produce, after
`.toUpperCase()`: a digit or an uppercase letter. -/
def isBase36Upper (c : Char) : Bool := c.isDigit || c.isUpper

/-- The possible values of
`Math.random().toString(36).substr(2, 6).toUpperCase()`: at most 6
base-36 characters, uppercased. -/
def isRandTok (t : String) : Bool :=
  t.length ≤ 6 && t.toList.all isBase36Upper

/-- Function `genCode()` applied to one random token: `'HF-' + token`. -/
def genCode (tok : String) : String := "HF-" ++ tok

/-- The `while (SELECT id FROM bookings WHERE confirmation_code=?) code
= genCode()` retry loop, with the successive random tokens supplied by
`toks` from index `i` and an explicit retry bound `fuel` (the JS loop is
unbounded; `fuel` many draws are modelled). -/
def pickCode (fuel : Nat) (toks : Nat → String) (existing : List String)
    (i : Nat) : Option String :=
  match fuel with
  | 0 => none
  | fuel' + 1 =>
    let c := genCode (toks i)
    if c ∈ existing then pickCode fuel' toks existing (i + 1) else some c

/-- The confirmation codes already present in the `bookings` table. -/
def existingCodes (st : St) : List String :=
  st.bookings.map Booking.confirmation_code

/-- Concrete store for the C4 witness: one business with
`commission_rate` 0.15, one 40.00-priced service, one available slot. -/
def c4St : St :=
  { businesses := [{ id := 1, name := "B", commission_rate := 15/100,
                     rating := 0, total_reviews := 0 }]
    services := [{ id := 1, business_id := 1, name := "S",
                   duration_minutes := 60, price := 40, active := true }]
    availability := [{ id := 1, business_id := 1, date := "2026-03-02",
                       time := "10:00", status := "available" }]
    bookings := [], reviews := []
    nextSlotId := 2, nextBookingId := 1, nextReviewId := 1 }

/-- The booking the C4 witness run produces. -/
def c4Bk : Booking :=
  { id := 1, client_id := 7, business_id := 1, service_id := 1
    availability_id := 1, date := "2026-03-02", time := "10:00"
    price := 40, commission_amount := 6, status := "pending"
    cancellation_charge := 0, confirmation_code := "HF-K2X9QJ" }

/-- The store after the C4 witness run. -/
def c4St' : St :=
  { c4St with
    bookings := [c4Bk]
    availability := [{ id := 1, business_id := 1, date := "2026-03-02",
                       time := "10:00", status := "booked" }]
    nextBookingId := 2 }

/-- Store for the C5 witness: one pending booking of business 1,
occupying slot 1. -/
def c5St : St :=
  { businesses := [{ id := 1, name := "B", commission_rate := 15/100,
                     rating := 0, total_reviews := 0 }]
    services := [{ id := 1, business_id := 1, name := "S",
                   duration_minutes := 60, price := 40, active := true }]
    availability := [{ id := 1, business_id := 1, date := "2026-03-02",
                       time := "10:00", status := "booked" }]
    bookings := [{ id := 1, client_id := 7, business_id := 1, service_id := 1
                   availability_id := 1, date := "2026-03-02", time := "10:00"
                   price := 40, commission_amount := 6, status := "pending"
                   cancellation_charge := 0, confirmation_code := "HF-K2X9QJ" }]
    reviews := []
    nextSlotId := 2, nextBookingId := 2, nextReviewId := 1 }

/-- Store for the C3 counterexample: a booking that is already
`cancelled`, owned by business 1. -/
def c3St : St :=
  { businesses := [{ id := 1, name := "B", commission_rate := 15/100,
                     rating := 0, total_reviews := 0 }]
    services := [{ id := 1, business_id := 1, name := "S",
                   duration_minutes := 60, price := 40, active := true }]
    availability := [{ id := 1, business_id := 1, date := "2026-03-02",
                       time := "10:00", status := "booked" }]
    bookings := [{ id := 1, client_id := 7, business_id := 1, service_id := 1
                   availability_id := 1, date := "2026-03-02", time := "10:00"
                   price := 40, commission_amount := 6, status := "cancelled"
                   cancellation_charge := 0, confirmation_code := "HF-K2X9QJ" }]
    reviews := []
    nextSlotId := 2, nextBookingId := 2, nextReviewId := 1 }

/-- Store for the C2 witness: a pending 40.00 booking at
2026-03-02T10:00 (epoch-modelled via `parse`). -/
def c2St : St := c5St

/-- The `UNIQUE(business_id, date, time)` key of an availability row. -/
def slotKey (a : Slot) : Nat × String × String := (a.business_id, a.date, a.time)

/-- Store for the C1 trace: one business, one service, one available
slot, clients 7 and 8. -/
def c1St : St :=
  { businesses := [{ id := 1, name := "B", commission_rate := 15/100,
                     rating := 0, total_reviews := 0 }]
    services := [{ id := 1, business_id := 1, name := "S",
                   duration_minutes := 60, price := 40, active := true }]
    availability := [{ id := 1, business_id := 1, date := "2026-03-02",
                       time := "10:00", status := "available" }]
    bookings := [], reviews := []
    nextSlotId := 2, nextBookingId := 1, nextReviewId := 1 }

/-- The C1 counterexample trace: client 7 books the slot, cancels ten
days ahead (charge 0, slot released), client 8 books the same slot, then
the business confirms the first — cancelled — booking. -/
def c1Trace : Option St :=
  (createBooking c1St 7 1 1 "2026-03-02" "10:00" "HF-AAAAAA").toOption.bind fun p1 =>
  (cancelBooking p1.1 1 7 (fun _ _ => 864000000) 0).toOption.bind fun p2 =>
  (createBooking p2.1 8 1 1 "2026-03-02" "10:00" "HF-BBBBBB").toOption.bind fun p3 =>
  (confirmBooking p3.1 1 1).toOption

/-- The booking client 7's create inserts in the C1 witness run. -/
def c1Bk1 : Booking :=
  { id := 1, client_id := 7, business_id := 1, service_id := 1
    availability_id := 1, date := "2026-03-02", time := "10:00"
    price := 40, commission_amount := 6, status := "pending"
    cancellation_charge := 0, confirmation_code := "HF-AAAAAA" }

/-- The store after the C1 witness run. -/
def c1St1 : St :=
  { c1St with
    bookings := [c1Bk1]
    availability := [{ id := 1, business_id := 1, date := "2026-03-02",
                       time := "10:00", status := "booked" }]
    nextBookingId := 2 }

/-- The completed booking of the C6 store. -/
def c6Bk : Booking :=
  { id := 1, client_id := 7, business_id := 1, service_id := 1
    availability_id := 1, date := "2026-03-02", time := "10:00"
    price := 40, commission_amount := 6, status := "completed"
    cancellation_charge := 0, confirmation_code := "HF-K2X9QJ" }

/-- Store for C6: one completed booking of client 7, no reviews yet. -/
def c6St : St :=
  { businesses := [{ id := 1, name := "B", commission_rate := 15/100,
                     rating := 0, total_reviews := 0 }]
    services := [{ id := 1, business_id := 1, name := "S",
                   duration_minutes := 60, price := 40, active := true }]
    availability := [{ id := 1, business_id := 1, date := "2026-03-02",
                       time := "10:00", status := "booked" }]
    bookings := [c6Bk], reviews := []
    nextSlotId := 2, nextBookingId := 2, nextReviewId := 1 }

/-- First completed booking of the C7 store. -/
def c7Bk1 : Booking :=
  { id := 1, client_id := 9, business_id := 1, service_id := 1
    availability_id := 1, date := "2026-03-02", time := "10:00"
    price := 40, commission_amount := 6, status := "completed"
    cancellation_charge := 0, confirmation_code := "HF-AAAAAA" }

/-- Second completed booking of the C7 store. -/
def c7Bk2 : Booking :=
  { id := 2, client_id := 9, business_id := 1, service_id := 1
    availability_id := 2, date := "2026-03-02", time := "11:00"
    price := 40, commission_amount := 6, status := "completed"
    cancellation_charge := 0, confirmation_code := "HF-BBBBBB" }

/-- Store for C7: two completed bookings of business 1, no reviews. -/
def c7St : St :=
  { businesses := [{ id := 1, name := "B", commission_rate := 15/100,
                     rating := 0, total_reviews := 0 }]
    services := [{ id := 1, business_id := 1, name := "S",
                   duration_minutes := 60, price := 40, active := true }]
    availability := [{ id := 1, business_id := 1, date := "2026-03-02",
                       time := "10:00", status := "booked" },
                     { id := 2, business_id := 1, date := "2026-03-02",
                       time := "11:00", status := "booked" }]
    bookings := [c7Bk1, c7Bk2], reviews := []
    nextSlotId := 3, nextBookingId := 3, nextReviewId := 1 }

/-- The C7 store after attaching the rating-5 review to booking 1. -/
def c7St1 : St :=
  { c7St with
    businesses := [{ id := 1, name := "B", commission_rate := 15/100,
                     rating := 5, total_reviews := 1 }]
    reviews := [{ id := 1, booking_id := 1, client_id := 9, business_id := 1
                  rating := 5, comment := "great" }]
    nextReviewId := 2 }

/-- The C7 store after further attaching the rating-3 review to
booking 2: rating 4.0, total 2. -/
def c7St2 : St :=
  { c7St with
    businesses := [{ id := 1, name := "B", commission_rate := 15/100,
                     rating := 4, total_reviews := 2 }]
    reviews := [{ id := 1, booking_id := 1, client_id := 9, business_id := 1
                  rating := 5, comment := "great" },
                { id := 2, booking_id := 2, client_id := 9, business_id := 1
                  rating := 3, comment := "fine" }]
    nextReviewId := 3 }

/-- Store for the C9 witness: an available slot and a booked slot. -/
def c9St : St :=
  { businesses := [{ id := 1, name := "B", commission_rate := 15/100,
                     rating := 0, total_reviews := 0 }]
    services := []
    availability := [{ id := 1, business_id := 1, date := "2026-03-02",
                       time := "10:00", status := "available" },
                     { id := 2, business_id := 1, date := "2026-03-02",
                       time := "11:00", status := "booked" }]
    bookings := [], reviews := []
    nextSlotId := 3, nextBookingId := 1, nextReviewId := 1 }

/-- Batteries' executable `Rat.floor` agrees with the floor of the
`FloorRing` instance. -/
theorem rat_floor_eq_floor (q : Rat) : q.floor = ⌊q⌋ := by
  rw [Rat.floor_def' q, Rat.floor_def]

theorem booking_status_after_set {l : List Booking} {k : Nat} {stat : String} :
    ∀ x ∈ l.map (fun b => if b.id == k then { b with status := stat } else b),
      x.id = k → x.status = stat := by
  intro x hx hid
  obtain ⟨b, hb, rfl⟩ := List.mem_map.1 hx
  cases h : (b.id == k) with
  | true => simp [h]
  | false =>
    simp only [h, Bool.false_eq_true, if_false] at hid
    rw [beq_iff_eq.mpr hid] at h
    exact absurd h (by simp)

theorem booking_fields_after_set {l : List Booking} {k : Nat} {stat : String} {ch : Rat} :
    ∀ x ∈ l.map (fun b =>
        if b.id == k then { b with status := stat, cancellation_charge := ch } else b),
      x.id = k → x.status = stat ∧ x.cancellation_charge = ch := by
  intro x hx hid
  obtain ⟨b, hb, rfl⟩ := List.mem_map.1 hx
  cases h : (b.id == k) with
  | true => simp [h]
  | false =>
    simp only [h, Bool.false_eq_true, if_false] at hid
    rw [beq_iff_eq.mpr hid] at h
    exact absurd h (by simp)

theorem slot_status_after_set {l : List Slot} {k : Nat} {stat : String} :
    ∀ a ∈ l.map (fun a => if a.id == k then { a with status := stat } else a),
      a.id = k → a.status = stat := by
  intro a ha hid
  obtain ⟨b, hb, rfl⟩ := List.mem_map.1 ha
  cases h : (b.id == k) with
  | true => simp [h]
  | false =>
    simp only [h, Bool.false_eq_true, if_false] at hid
    rw [beq_iff_eq.mpr hid] at h
    exact absurd h (by simp)

/-- A cancellation charge computed from a positive whole number of cents
is positive: the `< 24h` branch never produces a zero charge for a real
price. -/
theorem round2_half_cents_pos {k : Int} (hk : 1 ≤ k) :
    0 < round2 (((k : Rat) / 100) * (1/2)) := by
  have harg : ((k : Rat) / 100) * (1/2) * 100 + 1/2 = ((k : Rat) + 1) / 2 := by
    ring
  have hfl : (1 : Int) ≤ (((k : Rat) / 100) * (1/2) * 100 + 1/2).floor := by
    rw [harg, rat_floor_eq_floor]
    rw [Int.le_floor]
    have hk' : (1 : Rat) ≤ (k : Rat) := by exact_mod_cast hk
    push_cast
    linarith
  have : (0 : Rat) < ((((k : Rat) / 100) * (1/2) * 100 + 1/2).floor : Rat) := by
    exact_mod_cast lt_of_lt_of_le Int.zero_lt_one hfl
  unfold round2
  positivity

/-- C4: every booking created by `createBooking` has
`commission_amount = round2 (service.price * business.commission_rate)`,
the service and business being the ones the handler looked up. -/
theorem commission_invariant
    (st : St) (cid bid sid : Nat) (d t code : String)
    (sv : Service) (bz : Business) (st' : St) (bk : Booking)
    (hsv : findService st sid bid = some sv)
    (hbz : findBusiness st bid = some bz)
    (hok : createBooking st cid bid sid d t code = .ok (st', bk)) :
    bk.commission_amount = round2 (sv.price * bz.commission_rate) := by
  unfold createBooking at hok
  cases hA : findAvailable st bid d t with
  | none => rw [hA] at hok; exact absurd hok (by simp)
  | some slot =>
    rw [hA, hsv, hbz] at hok
    simp only [Except.ok.injEq, Prod.mk.injEq] at hok
    rw [← hok.2]

theorem commission_invariant_witness :
    c4Bk.commission_amount = round2 (40 * (15/100)) ∧
      round2 (40 * (15/100)) = 6 :=
  ⟨commission_invariant c4St 7 1 1 "2026-03-02" "10:00" "HF-K2X9QJ"
    { id := 1, business_id := 1, name := "S", duration_minutes := 60,
      price := 40, active := true }
    { id := 1, name := "B", commission_rate := 15/100, rating := 0,
      total_reviews := 0 }
    c4St' c4Bk
    (by with_unfolding_all rfl)
    (by with_unfolding_all rfl)
    (by with_unfolding_all rfl),
   by with_unfolding_all rfl⟩

/-- C5: a reject by the owning business of a found booking releases the
booking's slot back to `available`, marks the booking `cancelled`, and
changes no booking's `cancellation_charge` — in particular a booking
whose charge is 0 (the only value any non-cancelled booking can carry)
keeps charge 0. -/
theorem reject_releases_and_never_charges
    (st : St) (bkid bid : Nat) (bk : Booking)
    (hfind : findBookingForBusiness st bkid bid = some bk)
    (hnd : (st.bookings.map Booking.id).Nodup)
    (hz : bk.cancellation_charge = 0) :
    ∃ st', rejectBooking st bkid bid = .ok st' ∧
      (∀ a ∈ st'.availability, a.id = bk.availability_id → a.status = "available") ∧
      (∀ x ∈ st'.bookings, x.id = bkid →
        x.status = "cancelled" ∧ x.cancellation_charge = 0) ∧
      st'.bookings.map Booking.cancellation_charge =
        st.bookings.map Booking.cancellation_charge := by
  have hbkmem : bk ∈ st.bookings := List.mem_of_find?_eq_some hfind
  have hbkid : bk.id = bkid := by
    have := List.find?_some hfind
    simp only [Bool.and_eq_true, beq_iff_eq] at this
    exact this.1
  unfold rejectBooking
  rw [hfind]
  refine ⟨_, rfl, slot_status_after_set, ?_, ?_⟩
  · intro x hx hid
    refine ⟨booking_status_after_set x hx hid, ?_⟩
    obtain ⟨y, hy, rfl⟩ := List.mem_map.1 hx
    have hyid : y.id = bkid := by
      cases h : (y.id == bkid) with
      | true => exact beq_iff_eq.mp h
      | false => simp only [h, Bool.false_eq_true, if_false] at hid; exact hid
    have hybk : y = bk := by
      apply List.inj_on_of_nodup_map hnd hy hbkmem
      rw [hyid, hbkid]
    subst hybk
    rw [beq_iff_eq.mpr hyid, if_pos rfl]
    exact hz
  · rw [List.map_map]
    apply List.map_congr_left
    intro b _
    cases h : (b.id == bkid) with
    | true => simp [h, Function.comp]
    | false => simp [h, Function.comp]

theorem reject_releases_witness :
    ∃ st', rejectBooking c5St 1 1 = .ok st' ∧
      (∀ a ∈ st'.availability, a.id = 1 → a.status = "available") ∧
      (∀ x ∈ st'.bookings, x.id = 1 →
        x.status = "cancelled" ∧ x.cancellation_charge = 0) ∧
      st'.bookings.map Booking.cancellation_charge =
        c5St.bookings.map Booking.cancellation_charge :=
  reject_releases_and_never_charges c5St 1 1
    { id := 1, client_id := 7, business_id := 1, service_id := 1
      availability_id := 1, date := "2026-03-02", time := "10:00"
      price := 40, commission_amount := 6, status := "pending"
      cancellation_charge := 0, confirmation_code := "HF-K2X9QJ" }
    (by with_unfolding_all rfl)
    (by with_unfolding_all decide)
    (by with_unfolding_all rfl)

/-- C3 counterexample: `confirm` on a booking whose status is
`cancelled` succeeds and moves it to `confirmed`, so `cancelled` is not
terminal under `confirm`. -/
theorem confirm_resurrects_cancelled :
    c3St.bookings.map Booking.status = ["cancelled"] ∧
      (confirmBooking c3St 1 1).toOption.map (fun s => s.bookings.map Booking.status) =
        some ["confirmed"] := by
  with_unfolding_all decide

/-- C3 (amended): among `confirm`, `reject` and `cancel`, only `cancel`
guards a terminal state — it fails with `AlreadyCancelled` on an
already-cancelled booking, leaving the store untouched.  `confirm` and
`reject` have no status guard at all: `confirm` sets any found booking,
whatever its current status (including `cancelled` and `completed`), to
`confirmed`, and `reject` sets any found booking (including `completed`)
to `cancelled`. -/
theorem terminal_status_guards (st : St) :
    (∀ bkid cid parse now bk, findBookingForClient st bkid cid = some bk →
       bk.status = "cancelled" →
       cancelBooking st bkid cid parse now = .error .AlreadyCancelled) ∧
    (∀ bkid bid bk, findBookingForBusiness st bkid bid = some bk →
       ∃ st', confirmBooking st bkid bid = .ok st' ∧
         ∀ x ∈ st'.bookings, x.id = bkid → x.status = "confirmed") ∧
    (∀ bkid bid bk, findBookingForBusiness st bkid bid = some bk →
       ∃ st', rejectBooking st bkid bid = .ok st' ∧
         ∀ x ∈ st'.bookings, x.id = bkid → x.status = "cancelled") := by
  refine ⟨?_, ?_, ?_⟩
  · intro bkid cid parse now bk hfind hc
    simp [cancelBooking, hfind, hc]
  · intro bkid bid bk hfind
    unfold confirmBooking
    rw [hfind]
    exact ⟨_, rfl, booking_status_after_set⟩
  · intro bkid bid bk hfind
    unfold rejectBooking
    rw [hfind]
    exact ⟨_, rfl, booking_status_after_set⟩

theorem terminal_status_guards_witness :
    cancelBooking c3St 1 7 (fun _ _ => 0) 0 = .error .AlreadyCancelled :=
  (terminal_status_guards c3St).1 1 7 (fun _ _ => 0) 0
    { id := 1, client_id := 7, business_id := 1, service_id := 1
      availability_id := 1, date := "2026-03-02", time := "10:00"
      price := 40, commission_amount := 6, status := "cancelled"
      cancellation_charge := 0, confirmation_code := "HF-K2X9QJ" }
    (by with_unfolding_all rfl) rfl

/-- C2: cancelling an owned, not-yet-cancelled booking whose price is a
positive whole number of cents: with strictly less than 24 hours left
the charge is `round2 (price * 0.5)` and the availability table is left
untouched (the slot stays `booked`); with at least 24 hours left
(the exact 24h00m boundary included) the charge is 0 and the booking's
slot is set back to `available`. -/
theorem cancelBooking_late
    (st : St) (bkid cid : Nat) (parse : String → String → Int) (now : Int)
    (bk : Booking)
    (hfind : findBookingForClient st bkid cid = some bk)
    (hnc : bk.status ≠ "cancelled")
    (hchne : round2 (bk.price * (1/2)) ≠ 0)
    (hlt : ((parse bk.date bk.time - now : Int) : Rat) / 3600000 < 24) :
    ∃ st', cancelBooking st bkid cid parse now =
        .ok (st', round2 (bk.price * (1/2))) ∧
      st'.availability = st.availability ∧
      ∀ x ∈ st'.bookings, x.id = bkid →
        x.status = "cancelled" ∧
          x.cancellation_charge = round2 (bk.price * (1/2)) := by
  have hguard : ¬((bk.status == "cancelled") = true) := by simp [hnc]
  have hchne' : ¬((round2 (bk.price * (1/2)) == 0) = true) := by
    rw [beq_iff_eq]; exact hchne
  simp only [cancelBooking, hfind]
  rw [if_neg hguard]
  simp only [if_pos hlt]
  rw [if_neg hchne']
  exact ⟨_, rfl, rfl, booking_fields_after_set⟩

theorem cancelBooking_early
    (st : St) (bkid cid : Nat) (parse : String → String → Int) (now : Int)
    (bk : Booking)
    (hfind : findBookingForClient st bkid cid = some bk)
    (hnc : bk.status ≠ "cancelled")
    (hge : 24 ≤ ((parse bk.date bk.time - now : Int) : Rat) / 3600000) :
    ∃ st', cancelBooking st bkid cid parse now = .ok (st', 0) ∧
      (∀ a ∈ st'.availability, a.id = bk.availability_id →
        a.status = "available") ∧
      ∀ x ∈ st'.bookings, x.id = bkid →
        x.status = "cancelled" ∧ x.cancellation_charge = 0 := by
  have hguard : ¬((bk.status == "cancelled") = true) := by simp [hnc]
  have hlt : ¬(((parse bk.date bk.time - now : Int) : Rat) / 3600000 < 24) :=
    not_lt.mpr hge
  simp only [cancelBooking, hfind]
  rw [if_neg hguard]
  simp only [if_neg hlt]
  rw [if_pos (by rfl)]
  exact ⟨_, rfl, slot_status_after_set, booking_fields_after_set⟩

theorem cancel_charge_and_slot
    (st : St) (bkid cid : Nat) (parse : String → String → Int) (now : Int)
    (bk : Booking)
    (hfind : findBookingForClient st bkid cid = some bk)
    (hnc : bk.status ≠ "cancelled")
    (k : Int) (hk : 1 ≤ k) (hprice : bk.price = (k : Rat) / 100) :
    (((parse bk.date bk.time - now : Int) : Rat) / 3600000 < 24 →
      ∃ st', cancelBooking st bkid cid parse now =
          .ok (st', round2 (bk.price * (1/2))) ∧
        st'.availability = st.availability ∧
        ∀ x ∈ st'.bookings, x.id = bkid →
          x.status = "cancelled" ∧
            x.cancellation_charge = round2 (bk.price * (1/2))) ∧
    (24 ≤ ((parse bk.date bk.time - now : Int) : Rat) / 3600000 →
      ∃ st', cancelBooking st bkid cid parse now = .ok (st', 0) ∧
        (∀ a ∈ st'.availability, a.id = bk.availability_id →
          a.status = "available") ∧
        ∀ x ∈ st'.bookings, x.id = bkid →
          x.status = "cancelled" ∧ x.cancellation_charge = 0) := by
  have hchpos : 0 < round2 (bk.price * (1/2)) := by
    rw [hprice]; exact round2_half_cents_pos hk
  exact
    ⟨fun hlt => cancelBooking_late st bkid cid parse now bk hfind hnc
        (ne_of_gt hchpos) hlt,
     fun hge => cancelBooking_early st bkid cid parse now bk hfind hnc hge⟩

theorem cancel_charge_witness :
    ∃ st', cancelBooking c2St 1 7 (fun _ _ => 86400000) 0 = .ok (st', 0) ∧
      (∀ a ∈ st'.availability, a.id = 1 → a.status = "available") ∧
      ∀ x ∈ st'.bookings, x.id = 1 →
        x.status = "cancelled" ∧ x.cancellation_charge = 0 :=
  (cancel_charge_and_slot c2St 1 7 (fun _ _ => 86400000) 0
      { id := 1, client_id := 7, business_id := 1, service_id := 1
        availability_id := 1, date := "2026-03-02", time := "10:00"
        price := 40, commission_amount := 6, status := "pending"
        cancellation_charge := 0, confirmation_code := "HF-K2X9QJ" }
      (by with_unfolding_all rfl)
      (by with_unfolding_all decide)
      4000 (by decide)
      (by with_unfolding_all decide)).2
    (by with_unfolding_all decide)

/-- C10: cancelling an owned, not-yet-cancelled booking whose scheduled
date/time already lies in the past (negative milliseconds remaining) is
accepted and treated as a late cancellation: the handler has no guard
against past appointments, the charge is `round2 (price * 0.5)` and the
availability table is untouched. -/
theorem cancel_past_is_late_cancellation
    (st : St) (bkid cid : Nat) (parse : String → String → Int) (now : Int)
    (bk : Booking)
    (hfind : findBookingForClient st bkid cid = some bk)
    (hnc : bk.status ≠ "cancelled")
    (k : Int) (hk : 1 ≤ k) (hprice : bk.price = (k : Rat) / 100)
    (hpast : parse bk.date bk.time - now < 0) :
    ∃ st', cancelBooking st bkid cid parse now =
        .ok (st', round2 (bk.price * (1/2))) ∧
      st'.availability = st.availability ∧
      ∀ x ∈ st'.bookings, x.id = bkid →
        x.status = "cancelled" ∧
          x.cancellation_charge = round2 (bk.price * (1/2)) := by
  have hchpos : 0 < round2 (bk.price * (1/2)) := by
    rw [hprice]; exact round2_half_cents_pos hk
  have hcast : ((parse bk.date bk.time - now : Int) : Rat) < 0 := by
    exact_mod_cast hpast
  have hlt : ((parse bk.date bk.time - now : Int) : Rat) / 3600000 < 24 :=
    lt_trans (div_neg_of_neg_of_pos hcast (by norm_num)) (by norm_num)
  exact cancelBooking_late st bkid cid parse now bk hfind hnc
    (ne_of_gt hchpos) hlt

theorem cancel_past_witness :
    ∃ st', cancelBooking c5St 1 7 (fun _ _ => 0) 3600000 =
        .ok (st', round2 (40 * (1/2))) ∧
      st'.availability = c5St.availability ∧
      ∀ x ∈ st'.bookings, x.id = 1 →
        x.status = "cancelled" ∧ x.cancellation_charge = round2 (40 * (1/2)) :=
  cancel_past_is_late_cancellation c5St 1 7 (fun _ _ => 0) 3600000
    { id := 1, client_id := 7, business_id := 1, service_id := 1
      availability_id := 1, date := "2026-03-02", time := "10:00"
      price := 40, commission_amount := 6, status := "pending"
      cancellation_charge := 0, confirmation_code := "HF-K2X9QJ" }
    (by with_unfolding_all rfl)
    (by with_unfolding_all decide)
    4000 (by decide)
    (by with_unfolding_all decide)
    (by decide)

/-- C1 (amended): `createBooking` fails with `SlotUnavailable` when no
available slot sits at the key, and a successful `createBooking` flips
the consumed slot to `booked` and inserts the linked pending booking, so
an immediately repeated `createBooking` against the same key fails with
`SlotUnavailable` (the availability table is assumed key-unique, as the
schema's `UNIQUE(business_id,date,time)` guarantees). -/
theorem create_booking_slot_consumption
    (st : St) (cid bid sid : Nat) (d t code : String) :
    (findAvailable st bid d t = none →
      createBooking st cid bid sid d t code = .error .SlotUnavailable) ∧
    (∀ slot st' bk, findAvailable st bid d t = some slot →
      createBooking st cid bid sid d t code = .ok (st', bk) →
      (st.availability.map slotKey).Nodup →
      bk.availability_id = slot.id ∧
      bk ∈ st'.bookings ∧
      bk.status = "pending" ∧
      (∀ a ∈ st'.availability, a.id = slot.id → a.status = "booked") ∧
      (∀ cid' sid' code',
        createBooking st' cid' bid sid' d t code' = .error .SlotUnavailable)) := by
  constructor
  · intro hA
    simp only [createBooking, hA]
  · intro slot st' bk hA hok hnd
    have hslotmem : slot ∈ st.availability := List.mem_of_find?_eq_some hA
    have hslotpred := List.find?_some hA
    simp only [Bool.and_eq_true, beq_iff_eq] at hslotpred
    obtain ⟨⟨⟨hsb, hsd⟩, hst⟩, hss⟩ := hslotpred
    unfold createBooking at hok
    rw [hA] at hok
    cases hS : findService st sid bid with
    | none => rw [hS] at hok; exact absurd hok (by simp)
    | some sv =>
      cases hB : findBusiness st bid with
      | none => rw [hS, hB] at hok; exact absurd hok (by simp)
      | some bz =>
        rw [hS, hB] at hok
        simp only [Except.ok.injEq, Prod.mk.injEq] at hok
        obtain ⟨hst', hbk⟩ := hok
        subst hst'
        subst hbk
        have hnone : (st.availability.map fun a =>
            if a.id == slot.id then { a with status := "booked" } else a).find?
              (fun a => a.business_id == bid && a.date == d && a.time == t &&
                a.status == "available") = none := by
          rw [List.find?_eq_none]
          intro a ha hpred
          simp only [Bool.and_eq_true, beq_iff_eq] at hpred
          obtain ⟨⟨⟨hab, had⟩, hat⟩, has⟩ := hpred
          obtain ⟨b, hb, rfl⟩ := List.mem_map.1 ha
          cases h : (b.id == slot.id) with
          | true =>
            rw [h] at has had hat hab
            simp only [if_true] at has
            exact absurd has (by decide)
          | false =>
            rw [h] at has had hat hab
            simp only [Bool.false_eq_true, if_false] at has had hat hab
            have hbslot : b = slot := by
              apply List.inj_on_of_nodup_map hnd hb hslotmem
              unfold slotKey
              rw [hab, had, hat, hsb, hsd, hst]
            rw [hbslot] at h
            simp at h
        refine ⟨rfl, by simp, rfl, slot_status_after_set, ?_⟩
        intro cid' sid' code'
        simp only [createBooking, findAvailable, hnone]

/-- C1 counterexample: after the trace, TWO non-cancelled bookings
(statuses `confirmed` and `pending`) reference availability slot 1, so
the claimed store-wide invariant is violated by the real operations. -/
theorem two_noncancelled_bookings_one_slot :
    c1Trace.map (fun s =>
      (s.bookings.filter fun b =>
        b.availability_id == 1 && b.status != "cancelled").length) = some 2 ∧
    c1Trace.map (fun s =>
      s.bookings.map fun b => (b.availability_id, b.status)) =
        some [(1, "confirmed"), (1, "pending")] := by
  with_unfolding_all decide

theorem create_booking_slot_consumption_witness :
    c1Bk1 ∈ c1St1.bookings ∧
      createBooking c1St1 9 1 1 "2026-03-02" "10:00" "HF-CCCCCC" =
        .error .SlotUnavailable := by
  have h := (create_booking_slot_consumption c1St 7 1 1
      "2026-03-02" "10:00" "HF-AAAAAA").2
    { id := 1, business_id := 1, date := "2026-03-02", time := "10:00",
      status := "available" }
    c1St1 c1Bk1
    (by with_unfolding_all rfl)
    (by with_unfolding_all rfl)
    (by with_unfolding_all decide)
  exact ⟨h.2.1, h.2.2.2.2 9 1 "HF-CCCCCC"⟩

/-- C6 counterexample: the rating guard `!rating || rating < 1 ||
rating > 5` does not test integrality, so the non-integer rating 4.5
(den 2, inside [1,5]) is accepted on a completed owned booking and the
review is inserted — the claim says it must fail with `InvalidRating`. -/
theorem rating_four_point_five_accepted :
    (9/2 : Rat).den = 2 ∧ 1 ≤ (9/2 : Rat) ∧ (9/2 : Rat) ≤ 5 ∧
      (attachReview c6St 1 7 (9/2) "ok").isOk = true := by
  with_unfolding_all decide

/-- C6 (amended): the rating guard fires first and only on a missing /
zero rating or one outside [1,5] — non-integer ratings inside the range
pass it; with the rating accepted, a missing or non-owned booking and a
non-completed booking yield `InvalidState`; then an existing review for
the booking yields `DuplicateReview`; otherwise the review is appended. -/
theorem attach_review_guards
    (st : St) (bkid cid : Nat) (rating : Rat) (comment : String) :
    ((rating = 0 ∨ rating < 1 ∨ 5 < rating) →
      attachReview st bkid cid rating comment = .error .InvalidRating) ∧
    (¬(rating = 0 ∨ rating < 1 ∨ 5 < rating) →
      (findBookingForClient st bkid cid = none →
        attachReview st bkid cid rating comment = .error .InvalidState) ∧
      (∀ bk, findBookingForClient st bkid cid = some bk →
        (bk.status ≠ "completed" →
          attachReview st bkid cid rating comment = .error .InvalidState) ∧
        (bk.status = "completed" →
          ((findReview st bkid).isSome →
            attachReview st bkid cid rating comment = .error .DuplicateReview) ∧
          (findReview st bkid = none →
            ∃ st', attachReview st bkid cid rating comment = .ok st' ∧
              st'.reviews = st.reviews ++
                [{ id := st.nextReviewId, booking_id := bkid, client_id := cid
                   business_id := bk.business_id, rating := rating
                   comment := comment }])))) := by
  constructor
  · intro hbad
    have hg : (rating == 0 || rating < 1 || 5 < rating) = true := by
      simp only [Bool.or_eq_true, beq_iff_eq, decide_eq_true_eq]
      tauto
    simp only [attachReview, hg, if_true]
  · intro hgood
    have hg : (rating == 0 || rating < 1 || 5 < rating) = false := by
      simp only [Bool.or_eq_false_iff, beq_eq_false_iff_ne, ne_eq,
        decide_eq_false_iff_not]
      push_neg at hgood
      exact ⟨⟨hgood.1, not_lt.mpr hgood.2.1⟩, not_lt.mpr hgood.2.2⟩
    refine ⟨?_, ?_⟩
    · intro hnone
      simp only [attachReview, hg, Bool.false_eq_true, if_false, hnone]
    · intro bk hfind
      refine ⟨?_, ?_⟩
      · intro hnc
        have hbne : (bk.status != "completed") = true := by
          simp [bne_iff_ne, hnc]
        simp only [attachReview, hg, Bool.false_eq_true, if_false, hfind,
          hbne, if_true]
      · intro hcomp
        have hbne : (bk.status != "completed") = false := by
          simp [bne_iff_ne, hcomp]
        refine ⟨?_, ?_⟩
        · intro hdup
          simp only [attachReview, hg, Bool.false_eq_true, if_false, hfind,
            hbne, hdup, if_true]
        · intro hnodup
          have hdup : (findReview st bkid).isSome = false := by
            rw [hnodup]; rfl
          simp only [attachReview, hg, Bool.false_eq_true, if_false, hfind,
            hbne, hdup]
          exact ⟨_, rfl, rfl⟩

theorem attach_review_guards_witness :
    attachReview c6St 1 7 6 "x" = .error .InvalidRating ∧
      ∃ st', attachReview c6St 1 7 5 "y" = .ok st' ∧
        st'.reviews = c6St.reviews ++
          [{ id := 1, booking_id := 1, client_id := 7, business_id := 1
             rating := 5, comment := "y" }] := by
  refine ⟨(attach_review_guards c6St 1 7 6 "x").1 (by norm_num), ?_⟩
  have h := ((attach_review_guards c6St 1 7 5 "y").2 (by norm_num)).2 c6Bk
    (by with_unfolding_all rfl)
  exact (h.2 (by with_unfolding_all rfl)).2 (by with_unfolding_all rfl)

theorem business_fields_after_set {l : List Business} {k : Nat} {r : Rat} {n : Nat} :
    ∀ bz ∈ l.map (fun b =>
        if b.id == k then { b with rating := r, total_reviews := n } else b),
      bz.id = k → bz.rating = r ∧ bz.total_reviews = n := by
  intro bz hbz hid
  obtain ⟨b, hb, rfl⟩ := List.mem_map.1 hbz
  cases h : (b.id == k) with
  | true => simp [h]
  | false =>
    simp only [h, Bool.false_eq_true, if_false] at hid
    rw [beq_iff_eq.mpr hid] at h
    exact absurd h (by simp)

/-- C7: after every successful review insertion the owning business's
row carries `rating = round1 (mean of that business's reviews in the
new store)` and `total_reviews = their count`. -/
theorem review_aggregate_recompute
    (st : St) (bkid cid : Nat) (rating : Rat) (comment : String)
    (bk : Booking) (st' : St)
    (hfind : findBookingForClient st bkid cid = some bk)
    (hok : attachReview st bkid cid rating comment = .ok st') :
    ∀ bz ∈ st'.businesses, bz.id = bk.business_id →
      bz.rating = round1 (((st'.reviews.filter fun r =>
          r.business_id == bk.business_id).map Review.rating).sum /
        (((st'.reviews.filter fun r =>
          r.business_id == bk.business_id).length : Nat) : Rat)) ∧
      bz.total_reviews = (st'.reviews.filter fun r =>
          r.business_id == bk.business_id).length := by
  by_cases hg : (rating == 0 || rating < 1 || 5 < rating) = true
  · simp only [attachReview, hg, if_true] at hok
    exact absurd hok (by simp)
  · rw [Bool.not_eq_true] at hg
    by_cases hbne : (bk.status != "completed") = true
    · simp only [attachReview, hg, Bool.false_eq_true, if_false, hfind,
        hbne, if_true] at hok
      exact absurd hok (by simp)
    · rw [Bool.not_eq_true] at hbne
      by_cases hdup : (findReview st bkid).isSome = true
      · simp only [attachReview, hg, Bool.false_eq_true, if_false, hfind,
          hbne, hdup, if_true] at hok
        exact absurd hok (by simp)
      · rw [Bool.not_eq_true] at hdup
        simp only [attachReview, hg, Bool.false_eq_true, if_false, hfind,
          hbne, hdup, Except.ok.injEq] at hok
        subst hok
        exact business_fields_after_set

theorem review_aggregate_witness :
    (∀ bz ∈ c7St2.businesses, bz.id = 1 →
      bz.rating = round1 (((c7St2.reviews.filter fun r =>
          r.business_id == 1).map Review.rating).sum /
        (((c7St2.reviews.filter fun r =>
          r.business_id == 1).length : Nat) : Rat)) ∧
      bz.total_reviews = (c7St2.reviews.filter fun r =>
          r.business_id == 1).length) ∧
    attachReview c7St 1 9 5 "great" = .ok c7St1 ∧
    c7St2.businesses.map Business.rating = [4] ∧
    c7St2.businesses.map Business.total_reviews = [2] :=
  ⟨review_aggregate_recompute c7St1 2 9 3 "fine" c7Bk2 c7St2
      (by with_unfolding_all rfl)
      (by with_unfolding_all rfl),
   by with_unfolding_all rfl,
   by with_unfolding_all rfl,
   by with_unfolding_all rfl⟩

/-- C8 counterexample: the 6-character base-36 token "K2X9QJ" is a
possible `Math.random` draw, and the code built from it is
`'HF-' + token` = 9 characters, refuting the claimed ≤ 8 bound. -/
theorem nine_character_code :
    isRandTok "K2X9QJ" = true ∧ (genCode "K2X9QJ").length = 9 ∧
      ¬((genCode "K2X9QJ").length ≤ 8) := by
  decide

theorem pickCode_some_spec
    (toks : Nat → String) (existing : List String)
    (htoks : ∀ n, isRandTok (toks n) = true) :
    ∀ fuel i c, pickCode fuel toks existing i = some c →
      c ∉ existing ∧ c.length ≤ 9 ∧ c.toList.take 3 = ['H', 'F', '-'] ∧
        (c.toList.drop 3).all isBase36Upper = true := by
  intro fuel
  induction fuel with
  | zero => intro i c h; exact absurd h (by simp [pickCode])
  | succ fuel ih =>
    intro i c h
    unfold pickCode at h
    by_cases hmem : genCode (toks i) ∈ existing
    · rw [if_pos hmem] at h
      exact ih (i + 1) c h
    · rw [if_neg hmem] at h
      simp only [Option.some.injEq] at h
      subst h
      have htok := htoks i
      simp only [isRandTok, Bool.and_eq_true, decide_eq_true_eq] at htok
      refine ⟨hmem, ?_, ?_, ?_⟩
      · have hlen3 : ("HF-" : String).length = 3 := by decide
        have : (genCode (toks i)).length = 3 + (toks i).length := by
          rw [genCode, String.length_append, hlen3]
        omega
      · have : (genCode (toks i)).toList = ['H', 'F', '-'] ++ (toks i).toList := by
          simp [genCode]
        rw [this, List.take_left' (by rfl)]
      · have : (genCode (toks i)).toList = ['H', 'F', '-'] ++ (toks i).toList := by
          simp [genCode]
        rw [this, List.drop_left' (by rfl)]
        exact htok.2

/-- C8 (amended): a code returned by the collision-retry loop over
random tokens is `'HF-'` plus at most 6 uppercase base-36 characters —
at most 9 characters in all, not 8 — and is absent from the existing
codes; a booking created with it carries it as its `confirmation_code`
and is the only booking in the new store holding it. -/
theorem confirmation_code_fresh_format
    (fuel : Nat) (toks : Nat → String) (st : St) (i : Nat) (c : String)
    (htoks : ∀ n, isRandTok (toks n) = true)
    (hpick : pickCode fuel toks (existingCodes st) i = some c) :
    c ∉ existingCodes st ∧ c.length ≤ 9 ∧
      c.toList.take 3 = ['H', 'F', '-'] ∧
      (c.toList.drop 3).all isBase36Upper = true ∧
      ∀ cid bid sid d t st' bk,
        createBooking st cid bid sid d t c = .ok (st', bk) →
          bk.confirmation_code = c ∧
          ∀ x ∈ st'.bookings, x.confirmation_code = c → x = bk := by
  obtain ⟨hfresh, hlen, htake, hdrop⟩ :=
    pickCode_some_spec toks (existingCodes st) htoks fuel i c hpick
  refine ⟨hfresh, hlen, htake, hdrop, ?_⟩
  intro cid bid sid d t st' bk hok
  unfold createBooking at hok
  cases hA : findAvailable st bid d t with
  | none => rw [hA] at hok; exact absurd hok (by simp)
  | some slot =>
    cases hS : findService st sid bid with
    | none => rw [hA, hS] at hok; exact absurd hok (by simp)
    | some sv =>
      cases hB : findBusiness st bid with
      | none => rw [hA, hS, hB] at hok; exact absurd hok (by simp)
      | some bz =>
        rw [hA, hS, hB] at hok
        simp only [Except.ok.injEq, Prod.mk.injEq] at hok
        obtain ⟨hst', hbk⟩ := hok
        subst hst'
        subst hbk
        refine ⟨rfl, ?_⟩
        intro x hx hxc
        simp only [List.mem_append, List.mem_singleton] at hx
        cases hx with
        | inl hmem =>
          exact absurd (hxc ▸ List.mem_map_of_mem Booking.confirmation_code hmem)
            hfresh
        | inr heq => exact heq

theorem confirmation_code_witness :
    "HF-K2X9QJ" ∉ existingCodes c1St ∧ ("HF-K2X9QJ" : String).length ≤ 9 :=
  have ht : isRandTok "K2X9QJ" = true := by decide
  have h := confirmation_code_fresh_format 1 (fun _ => "K2X9QJ") c1St 0
    "HF-K2X9QJ" (fun _ => ht) (by decide)
  ⟨h.1, h.2.1⟩

/-- C9: each upsert entry creates an absent slot with the entry's
status, overwrites only the status of an existing non-booked slot at
the key, and leaves the store completely unchanged when the existing
slot is `booked`; `upsertMany` is the entry-by-entry fold of this
behaviour. -/
theorem upsert_entry_behaviour (bid : Nat) (st : St) (e : SlotEntry) :
    (findSlotAtKey st bid e.date e.time = none →
      upsertOne bid st e = { st with
        availability := st.availability ++
          [{ id := st.nextSlotId, business_id := bid, date := e.date,
             time := e.time, status := e.effStatus }]
        nextSlotId := st.nextSlotId + 1 }) ∧
    (∀ a, findSlotAtKey st bid e.date e.time = some a →
      (a.status ≠ "booked" →
        upsertOne bid st e = { st with
          availability := st.availability.map fun x =>
            if x.business_id == bid && x.date == e.date && x.time == e.time then
              { x with status := e.effStatus }
            else x } ∧
        ∀ x ∈ (upsertOne bid st e).availability,
          x.business_id = bid → x.date = e.date → x.time = e.time →
            x.status = e.effStatus) ∧
      (a.status = "booked" → upsertOne bid st e = st)) ∧
    (∀ es, upsertMany bid st es = es.foldl (upsertOne bid) st) := by
  refine ⟨?_, ?_, fun _ => rfl⟩
  · intro hnone
    simp only [upsertOne, hnone]
  · intro a hsome
    constructor
    · intro hnb
      have hg : ¬((a.status == "booked") = true) := by simp [hnb]
      constructor
      · simp only [upsertOne, hsome]
        rw [if_neg hg]
      · intro x hx hb hd ht
        simp only [upsertOne, hsome] at hx
        rw [if_neg hg] at hx
        simp only at hx
        obtain ⟨y, hy, rfl⟩ := List.mem_map.1 hx
        cases h : (y.business_id == bid && y.date == e.date && y.time == e.time) with
        | true => simp [h]
        | false =>
          simp only [h, Bool.false_eq_true, if_false] at hb hd ht
          rw [show (y.business_id == bid && y.date == e.date &&
              y.time == e.time) = true by
            simp [hb, hd, ht]] at h
          exact absurd h (by simp)
    · intro hb
      have hg : (a.status == "booked") = true := by simp [hb]
      simp only [upsertOne, hsome]
      rw [if_pos hg]

theorem upsert_entry_witness :
    upsertOne 1 c9St ⟨"2026-03-02", "11:00", some "available"⟩ = c9St ∧
      upsertOne 1 c9St ⟨"2026-03-02", "12:00", none⟩ = { c9St with
          availability := c9St.availability ++
            [{ id := 3, business_id := 1, date := "2026-03-02",
               time := "12:00", status := "available" }]
          nextSlotId := 4 } :=
  ⟨((upsert_entry_behaviour 1 c9St ⟨"2026-03-02", "11:00", some "available"⟩).2.1
      ⟨2, 1, "2026-03-02", "11:00", "booked"⟩
      (by with_unfolding_all rfl)).2 rfl,
   (upsert_entry_behaviour 1 c9St ⟨"2026-03-02", "12:00", none⟩).1
      (by with_unfolding_all rfl)⟩

end Hourfix
